import Mathlib

/-!
Verification of the teleoperated throttle controller in `油门控制.py`
(`DroneThrustControl`).  The controller owns a mutable throttle value,
an input-listener callback (`_on_key_press`), a periodic sender loop
(`_control_loop`), and a shutdown path (`_safe_shutdown`,
`_send_stop_command`, `_quit_program`, `_connection_lost`, `_connected`).

The shallow embedding below translates those methods into pure Lean
functions over an explicit controller state.  Side effects on the
flight-control collaborator (setpoint sends, link closure, listener
stop, thread/listener creation, arming) are recorded as an event trace.
Python exceptions are modelled by an `Option PyExn` component where a
method can let one escape; Python `print` calls, `time.sleep` delays and
thread joins have no effect on the modelled state and are omitted.
Sends to the radio link may fail; an environment oracle decides which
send attempts raise and whether `close_link` raises.
-/

namespace DroneThrustControl

/-- Observable effects on the flight-control collaborator, in order. -/
inductive Event where
  | sendStop                 -- commander.send_setpoint(0, 0, 0, 0)
  | sendThrust (t : Int)     -- commander.send_setpoint(0, 0, 0, thrust)
  | closeLink                -- cf.close_link()
  | listenerStop             -- listener.stop()
  | armRequest               -- platform.send_arming_request(True)
  | startControlThread       -- threading.Thread(target=_control_loop).start()
  | startListener            -- keyboard.Listener(on_press=...).start()
  | connLostFired            -- the connection_lost callback was invoked
  deriving DecidableEq, Repr

/-- Python exceptions that the modelled methods can raise or catch. -/
inductive PyExn where
  | systemExit (code : Int)  -- raised by sys.exit
  | sendError                -- raised by commander.send_setpoint
  | closeError               -- raised by cf.close_link
  | attributeError
  deriving DecidableEq, Repr

/-- Controller state: the fields of `DroneThrustControl` that the claims
depend on, plus bookkeeping for the trace, the number of control threads
and keyboard listeners ever started, and a global count of setpoint-send
attempts (the index consumed by the failure oracle). -/
structure Ctrl where
  thrust : Int
  thrust_step : Int
  MIN_THRUST : Int
  MAX_THRUST : Int
  is_running : Bool
  is_connected : Bool
  listener_running : Bool   -- self._listener is not None and self._listener.running
  threadCount : Nat         -- control threads started so far
  listenerCount : Nat       -- keyboard listeners started so far
  sendAttempts : Nat        -- setpoint send attempts so far (oracle index)
  trace : List Event
  deriving DecidableEq, Repr

/-- Fault model: `sendFail n` says whether the n-th setpoint send attempt
raises, `closeFail` whether `close_link` raises. -/
structure Env where
  sendFail : Nat → Bool
  closeFail : Bool

/-- The nominal environment: every send succeeds, closing succeeds. -/
def nofail : Env := ⟨fun _ => false, false⟩

/-- State after `__init__`: thrust 20000, step 500, bounds 10000/60000,
flags false, no threads or listeners yet.  (`open_link` is issued here
but produces no modelled effect until a lifecycle callback fires.) -/
def initCtrl : Ctrl :=
  { thrust := 20000
    thrust_step := 500
    MIN_THRUST := 10000
    MAX_THRUST := 60000
    is_running := false
    is_connected := false
    listener_running := false
    threadCount := 0
    listenerCount := 0
    sendAttempts := 0
    trace := [] }

/-- One `commander.send_setpoint` attempt recording event `e`; returns
the updated state and whether the send succeeded (`false` = it raised).
A raising send emits no event. -/
def sendSetpoint (env : Env) (s : Ctrl) (e : Event) : Ctrl × Bool :=
  if env.sendFail s.sendAttempts then
    ({ s with sendAttempts := s.sendAttempts + 1 }, false)
  else
    ({ s with sendAttempts := s.sendAttempts + 1, trace := s.trace ++ [e] }, true)

/-- `_send_stop_command(count)`: send `(0,0,0,0)` `count` times; a raise
inside the loop body is caught and breaks out of the loop. -/
def send_stop_command (env : Env) : Nat → Ctrl → Ctrl
  | 0, s => s
  | n + 1, s =>
    let r := sendSetpoint env s Event.sendStop
    if r.2 then send_stop_command env n r.1 else r.1

/-- `cf.close_link()`: may raise; on success the link-closure event is
recorded. -/
def close_link (env : Env) (s : Ctrl) : Ctrl × Option PyExn :=
  if env.closeFail then (s, some PyExn.closeError)
  else ({ s with trace := s.trace ++ [Event.closeLink] }, none)

/-- `_safe_shutdown`: (1) send 30 stop commands, (2) close the link if
connected, with any raise caught and logged, (3) clear the running and
connected flags, (4) stop the keyboard listener if it is running.
No exception escapes (second component always `none`). -/
def safe_shutdown (env : Env) (s : Ctrl) : Ctrl × Option PyExn :=
  let s1 := send_stop_command env 30 s
  let s2 := if s1.is_connected then (close_link env s1).1 else s1
  let s3 := { s2 with is_running := false, is_connected := false }
  let s4 :=
    if s3.listener_running then
      { s3 with listener_running := false, trace := s3.trace ++ [Event.listenerStop] }
    else s3
  (s4, none)

/-- Keyboard keys: the three recognized keys and any other key event. -/
inductive Key where
  | up
  | down
  | esc
  | other (code : Nat)
  deriving DecidableEq, Repr

/-- `_quit_program`: clears `_is_running`, joins the control thread with
a bounded timeout (no modelled effect), then raises `SystemExit(0)` via
`sys.exit(0)`. -/
def quit_program (s : Ctrl) : Ctrl × Option PyExn :=
  ({ s with is_running := false }, some (PyExn.systemExit 0))

/-- `_on_key_press(key)`: return immediately unless running and
connected; up-arrow clamps the throttle up, down-arrow clamps it down,
escape quits; any other key falls through the if/elif chain unchanged.
The body is wrapped in `try/except AttributeError`, but no statement in
it can raise `AttributeError`, and the `SystemExit` raised by
`_quit_program` is not caught by that handler. -/
def on_key_press (s : Ctrl) (k : Key) : Ctrl × Option PyExn :=
  if !s.is_running || !s.is_connected then (s, none)
  else
    match k with
    | Key.up =>
      ({ s with thrust := min (s.thrust + s.thrust_step) s.MAX_THRUST }, none)
    | Key.down =>
      ({ s with thrust := max (s.thrust - s.thrust_step) s.MIN_THRUST }, none)
    | Key.esc => quit_program s
    | Key.other _ => (s, none)

/-- `_connected(link_uri)`: mark connected, request arming (the platform
supports it), mark running, start a new control thread and a new
keyboard listener.  There is no guard on the running flag. -/
def connected (s : Ctrl) : Ctrl :=
  { s with
    is_connected := true
    is_running := true
    listener_running := true
    threadCount := s.threadCount + 1
    listenerCount := s.listenerCount + 1
    trace := s.trace ++ [Event.armRequest, Event.startControlThread, Event.startListener] }

/-- The state in which a session normally runs: `__init__` followed by
the `_connected` callback. -/
def readyState : Ctrl := connected initCtrl

/-- The while-loop of `_control_loop`, run for at most `fuel`
iterations: while `_is_running`, send `(0,0,0,thrust)` and sleep.  The
returned flag says whether the loop exited (condition false, or a send
raised into the `except` clause); `false` means the fuel ran out while
the loop was still running. -/
def controlLoopIter (env : Env) : Nat → Ctrl → Ctrl × Bool
  | 0, s => (s, false)
  | n + 1, s =>
    if s.is_running then
      let r := sendSetpoint env s (Event.sendThrust s.thrust)
      if r.2 then controlLoopIter env n r.1 else (r.1, true)
    else (s, true)

/-- `_control_loop`: send 5 stop commands, then run the while-loop;
when the loop exits (normally or through the `except` clause) the
`finally` clause runs `_safe_shutdown`.  If the fuel runs out first the
mid-run state is returned. -/
def control_loop (env : Env) (fuel : Nat) (s : Ctrl) : Ctrl :=
  let r := controlLoopIter env fuel (send_stop_command env 5 s)
  if r.2 then (safe_shutdown env r.1).1 else r.1

/-- The quit scenario: the operator presses escape (handled on the
listener thread), then the control loop observes the cleared running
flag within `fuel` further iterations and shuts down. -/
def quit_scenario (env : Env) (fuel : Nat) (s : Ctrl) : Ctrl :=
  let s1 := (on_key_press s Key.esc).1
  let r := controlLoopIter env fuel s1
  if r.2 then (safe_shutdown env r.1).1 else r.1

/-- The session state reached from `readyState` once the throttle has
been driven down to `MIN_THRUST`: every field of `readyState` with the
thrust clamped at 10000. -/
def minState : Ctrl :=
  { thrust := 10000
    thrust_step := 500
    MIN_THRUST := 10000
    MAX_THRUST := 60000
    is_running := true
    is_connected := true
    listener_running := true
    threadCount := 1
    listenerCount := 1
    sendAttempts := 0
    trace := [Event.armRequest, Event.startControlThread, Event.startListener] }

/-- Operator commands, as in the spec: Increase and Decrease. -/
inductive Cmd where
  | inc
  | dec
  deriving DecidableEq, Repr

/-- The key delivering each command: up-arrow for Increase, down-arrow
for Decrease. -/
def cmdKey : Cmd → Key
  | Cmd.inc => Key.up
  | Cmd.dec => Key.down

/-- Apply one Increase/Decrease command through the key handler. -/
def applyCmd (s : Ctrl) (c : Cmd) : Ctrl := (on_key_press s (cmdKey c)).1

/-- Apply a sequence of commands through the key handler. -/
def applyCmds (s : Ctrl) (l : List Cmd) : Ctrl := l.foldl applyCmd s

/-- The configuration invariant of a running session: the constants of
`__init__` and the thrust bounds. -/
def ThrustInv (s : Ctrl) : Prop :=
  s.thrust_step = 500 ∧ s.MIN_THRUST = 10000 ∧ s.MAX_THRUST = 60000 ∧
    10000 ≤ s.thrust ∧ s.thrust ≤ 60000

/-- A list of events containing no thrust-carrying setpoint. -/
def NoThrust (t : List Event) : Prop := ∀ v : Int, Event.sendThrust v ∉ t

/-!
Interleaving model for the connection-lost scenario: the periodic-sender
thread (`_control_loop`) runs concurrently with the `_connection_lost`
callback (which executes `_safe_shutdown`).  Each thread is split into
the atomic steps visible to the other: the sender's while-condition
check and its setpoint send are separate steps, and the callback's 30
stop sends, link closure, flag clearing and listener stop are separate
steps.  A schedule is a list of choices of which thread moves next.
-/

/-- Program counter of the periodic-sender thread. -/
inductive LoopPc where
  | check     -- about to evaluate `while self._is_running`
  | sending   -- condition observed true, about to send `(0,0,0,thrust)`
  | finished  -- loop exited and the `finally` clause has run
  deriving DecidableEq, Repr

/-- One atomic step of the `_connection_lost` callback, by program
counter: 0 = record that the callback fired; 1..30 = the 30 stop-send
attempts of `_send_stop_command(30)` (a failed attempt breaks to the
close step); 31 = close the link if connected; 32 = clear the running
and connected flags; 33 = stop the listener; 34 = done. -/
def cbStepFn (env : Env) (pc : Nat) (s : Ctrl) : Nat × Ctrl :=
  if pc = 0 then (1, { s with trace := s.trace ++ [Event.connLostFired] })
  else if pc ≤ 30 then
    let r := sendSetpoint env s Event.sendStop
    (if r.2 then pc + 1 else 31, r.1)
  else if pc = 31 then
    (32, if s.is_connected then (close_link env s).1 else s)
  else if pc = 32 then
    (33, { s with is_running := false, is_connected := false })
  else if pc = 33 then
    (34,
      if s.listener_running then
        { s with listener_running := false, trace := s.trace ++ [Event.listenerStop] }
      else s)
  else (pc, s)

/-- Interleaved system state: shared controller state plus the program
counters of the sender thread and the connection-lost callback. -/
structure Conc where
  ctrl : Ctrl
  loopPc : LoopPc
  cbPc : Nat
  deriving DecidableEq, Repr

/-- Scheduler choice: which thread takes the next atomic step. -/
inductive Choice where
  | loopStep
  | cbStep
  deriving DecidableEq, Repr

/-- One atomic step of the periodic-sender thread.  At `check` it reads
the running flag; at `sending` it sends the thrust setpoint (a raise
exits to the `finally` clause).  The `finally` clause's
`_safe_shutdown` is taken as one step here, which is sound for the
properties proved below because it emits no thrust setpoints. -/
def loopStepFn (env : Env) (c : Conc) : Conc :=
  match c.loopPc with
  | LoopPc.check =>
    if c.ctrl.is_running then { c with loopPc := LoopPc.sending }
    else { c with loopPc := LoopPc.finished, ctrl := (safe_shutdown env c.ctrl).1 }
  | LoopPc.sending =>
    let r := sendSetpoint env c.ctrl (Event.sendThrust c.ctrl.thrust)
    if r.2 then { c with loopPc := LoopPc.check, ctrl := r.1 }
    else { c with loopPc := LoopPc.finished, ctrl := (safe_shutdown env r.1).1 }
  | LoopPc.finished => c

/-- One step of the interleaved system. -/
def concStep (env : Env) (c : Conc) : Choice → Conc
  | Choice.loopStep => loopStepFn env c
  | Choice.cbStep =>
    let r := cbStepFn env c.cbPc c.ctrl
    { c with cbPc := r.1, ctrl := r.2 }

/-- Run the interleaved system under a schedule. -/
def concRun (env : Env) (c : Conc) (sched : List Choice) : Conc :=
  sched.foldl (concStep env) c

/-- The system at the instant the `connection_lost` callback is invoked
mid-session: controller in the nominal running state, sender thread at
its condition check, callback about to start. -/
def lostConc : Conc := { ctrl := readyState, loopPc := LoopPc.check, cbPc := 0 }

lemma applyCmd_inv (s : Ctrl) (c : Cmd) (h : ThrustInv s) : ThrustInv (applyCmd s c) := by
  obtain ⟨h1, h2, h3, h4, h5⟩ := h
  cases c <;>
    simp only [applyCmd, on_key_press, cmdKey] <;>
    split <;>
    simp_all [ThrustInv] <;>
    omega

lemma applyCmds_inv (l : List Cmd) (s : Ctrl) (h : ThrustInv s) :
    ThrustInv (applyCmds s l) := by
  induction l generalizing s with
  | nil => exact h
  | cons c l ih => exact ih (applyCmd s c) (applyCmd_inv s c h)

lemma readyState_inv : ThrustInv readyState := by
  refine ⟨rfl, rfl, rfl, ?_, ?_⟩ <;> decide

lemma applyCmds_append (s : Ctrl) (l1 l2 : List Cmd) :
    applyCmds s (l1 ++ l2) = applyCmds (applyCmds s l1) l2 := by
  simp [applyCmds]

lemma decs_at_min (s : Ctrl) (h : applyCmd s Cmd.dec = s) (k : Nat) :
    applyCmds s (List.replicate k Cmd.dec) = s := by
  induction k with
  | zero => rfl
  | succ k ih =>
    rw [List.replicate_succ]
    show applyCmds (applyCmd s Cmd.dec) (List.replicate k Cmd.dec) = s
    rw [h, ih]

lemma nofail_sendFail (x : Nat) : nofail.sendFail x = false := rfl

lemma nofail_closeFail : nofail.closeFail = false := rfl

lemma send_stop_command_nofail (n : Nat) (s : Ctrl) :
    send_stop_command nofail n s =
      { s with sendAttempts := s.sendAttempts + n,
               trace := s.trace ++ List.replicate n Event.sendStop } := by
  induction n generalizing s with
  | zero => simp [send_stop_command]
  | succ n ih =>
    simp [send_stop_command, sendSetpoint, nofail_sendFail, ih, List.replicate_succ,
      Ctrl.mk.injEq]
    omega

lemma send_stop_command_core (env : Env) (n : Nat) (s : Ctrl) :
    ∃ k a, k ≤ n ∧ send_stop_command env n s =
      { s with sendAttempts := a,
               trace := s.trace ++ List.replicate k Event.sendStop } := by
  induction n generalizing s with
  | zero => exact ⟨0, s.sendAttempts, by simp [send_stop_command]⟩
  | succ n ih =>
    by_cases h : env.sendFail s.sendAttempts = true
    · refine ⟨0, s.sendAttempts + 1, by omega, ?_⟩
      simp [send_stop_command, sendSetpoint, h]
    · simp only [Bool.not_eq_true] at h
      obtain ⟨k, a, hk, he⟩ :=
        ih { s with sendAttempts := s.sendAttempts + 1, trace := s.trace ++ [Event.sendStop] }
      refine ⟨k + 1, a, by omega, ?_⟩
      simp [send_stop_command, sendSetpoint, h, he, List.replicate_succ]

lemma send_stop_command_fail (env : Env) (n j : Nat) (s : Ctrl) (hj : j < n)
    (hok : ∀ i, i < j → env.sendFail (s.sendAttempts + i) = false)
    (hfail : env.sendFail (s.sendAttempts + j) = true) :
    send_stop_command env n s =
      { s with sendAttempts := s.sendAttempts + j + 1,
               trace := s.trace ++ List.replicate j Event.sendStop } := by
  induction j generalizing n s with
  | zero =>
    obtain ⟨m, rfl⟩ : ∃ m, n = m + 1 := ⟨n - 1, by omega⟩
    have h0 : env.sendFail s.sendAttempts = true := by simpa using hfail
    simp [send_stop_command, sendSetpoint, h0]
  | succ j ih =>
    obtain ⟨m, rfl⟩ : ∃ m, n = m + 1 := ⟨n - 1, by omega⟩
    have h0 : env.sendFail s.sendAttempts = false := by simpa using hok 0 (by omega)
    have he := ih m
      { s with sendAttempts := s.sendAttempts + 1, trace := s.trace ++ [Event.sendStop] }
      (by omega)
      (by intro i hi; simpa [Nat.add_assoc, Nat.add_comm 1 i] using hok (i + 1) (by omega))
      (by simpa [Nat.add_assoc, Nat.add_comm 1 j] using hfail)
    simp [send_stop_command, sendSetpoint, h0, he, List.replicate_succ, Ctrl.mk.injEq]
    omega

lemma safe_shutdown_nofail (s : Ctrl) :
    safe_shutdown nofail s =
      ({ s with sendAttempts := s.sendAttempts + 30,
                is_running := false, is_connected := false, listener_running := false,
                trace := s.trace ++ List.replicate 30 Event.sendStop ++
                  (if s.is_connected then [Event.closeLink] else []) ++
                  (if s.listener_running then [Event.listenerStop] else []) }, none) := by
  simp only [safe_shutdown, send_stop_command_nofail, close_link, nofail_closeFail]
  by_cases hc : s.is_connected <;> by_cases hl : s.listener_running <;>
    simp [hc, hl, List.append_assoc]

lemma safe_shutdown_spec (env : Env) (s : Ctrl) :
    (safe_shutdown env s).2 = none ∧ (safe_shutdown env s).1.is_running = false ∧
      ∃ t, (safe_shutdown env s).1.trace = s.trace ++ t ∧ NoThrust t := by
  obtain ⟨k, a, hk, he⟩ := send_stop_command_core env 30 s
  refine ⟨rfl, ?_, ?_⟩
  · simp only [safe_shutdown, he]
    by_cases hc : s.is_connected <;> by_cases hcf : env.closeFail <;>
      by_cases hl : s.listener_running <;> simp [close_link, hc, hcf, hl]
  · simp only [safe_shutdown, he]
    by_cases hc : s.is_connected <;> by_cases hcf : env.closeFail <;>
      by_cases hl : s.listener_running <;>
      simp [close_link, hc, hcf, hl, List.append_assoc, NoThrust]

/-- Claim C1: every sequence of Increase/Decrease commands applied from the
initial running state (thrust 20000, step 500, MIN_THRUST 10000,
MAX_THRUST 60000) leaves the thrust inside [MIN_THRUST, MAX_THRUST]
after each command, and it is never negative.  (The state after each
command is `applyCmds readyState l` for the corresponding prefix `l`.) -/
theorem C1_thrust_in_bounds (l : List Cmd) :
    (applyCmds readyState l).MIN_THRUST ≤ (applyCmds readyState l).thrust ∧
      (applyCmds readyState l).thrust ≤ (applyCmds readyState l).MAX_THRUST ∧
      0 ≤ (applyCmds readyState l).thrust := by
  have h := applyCmds_inv l readyState readyState_inv
  obtain ⟨h1, h2, h3, h4, h5⟩ := h
  refine ⟨?_, ?_, ?_⟩ <;> omega

/-- Claim C2: the input handler implements the clamp-then-step policy —
Increase sets `thrust` to `min (thrust + step) MAX_THRUST` and Decrease
to `max (thrust - step) MIN_THRUST` — and from the initial running state
5 Increase commands yield 22500, 10 further Decrease commands yield
17500, and 15 or more further Decrease commands clamp at 10000. -/
theorem C2_clamp_then_step :
    (∀ s : Ctrl, s.is_running = true → s.is_connected = true →
      (on_key_press s Key.up).1.thrust = min (s.thrust + s.thrust_step) s.MAX_THRUST ∧
        (on_key_press s Key.down).1.thrust = max (s.thrust - s.thrust_step) s.MIN_THRUST) ∧
    (applyCmds readyState (List.replicate 5 Cmd.inc)).thrust = 22500 ∧
    (applyCmds readyState
      (List.replicate 5 Cmd.inc ++ List.replicate 10 Cmd.dec)).thrust = 17500 ∧
    (∀ k : Nat,
      (applyCmds readyState
        (List.replicate 5 Cmd.inc ++ List.replicate 10 Cmd.dec ++
          List.replicate (15 + k) Cmd.dec)).thrust = 10000) := by
  refine ⟨?_, by decide, by decide, ?_⟩
  · intro s h1 h2
    constructor <;> simp [on_key_press, h1, h2]
  · intro k
    have h40 : applyCmds readyState
        (List.replicate 5 Cmd.inc ++ List.replicate 10 Cmd.dec ++
          List.replicate 15 Cmd.dec) = minState := by
      simp [applyCmds, applyCmd, on_key_press, cmdKey, readyState, connected, initCtrl,
        List.replicate, quit_program, minState]
    have hfix : applyCmd minState Cmd.dec = minState := by decide
    rw [List.replicate_add, ← List.append_assoc, applyCmds_append, h40,
      decs_at_min minState hfix k]
    rfl

/-- Claim C2 witness: the policy equations instantiated at `readyState`, and
the clamp at 10000 reached after exactly 15 further Decrease commands. -/
theorem C2_clamp_then_step_witness :
    (on_key_press readyState Key.up).1.thrust =
        min (readyState.thrust + readyState.thrust_step) readyState.MAX_THRUST ∧
      (applyCmds readyState
        (List.replicate 5 Cmd.inc ++ List.replicate 10 Cmd.dec ++
          List.replicate (15 + 0) Cmd.dec)).thrust = 10000 :=
  ⟨(C2_clamp_then_step.1 readyState (by decide) (by decide)).1,
    C2_clamp_then_step.2.2.2 0⟩

lemma controlLoopIter_trace (env : Env) (fuel : Nat) (s : Ctrl) :
    ∃ t, (controlLoopIter env fuel s).1.trace = s.trace ++ t := by
  induction fuel generalizing s with
  | zero => exact ⟨[], by simp [controlLoopIter]⟩
  | succ n ih =>
    by_cases hr : s.is_running
    · by_cases hf : env.sendFail s.sendAttempts = true
      · exact ⟨[], by simp [controlLoopIter, sendSetpoint, hr, hf]⟩
      · simp only [Bool.not_eq_true] at hf
        obtain ⟨t, ht⟩ := ih { s with sendAttempts := s.sendAttempts + 1, trace := s.trace ++ [Event.sendThrust s.thrust] }
        refine ⟨Event.sendThrust s.thrust :: t, ?_⟩
        rw [hr] at ht
        simp [controlLoopIter, sendSetpoint, hf, hr, ht]
    · exact ⟨[], by simp [controlLoopIter, hr]⟩

/-- Claim C10: when the periodic sender loop starts, it first sends an
initial burst of 5 stop setpoints before any thrust-carrying setpoint is
transmitted: every event the loop emits comes after those 5 stops. -/
theorem C10_initial_stop_burst (fuel : Nat) (s : Ctrl) :
    ∃ t, (control_loop nofail fuel s).trace =
      s.trace ++ List.replicate 5 Event.sendStop ++ t := by
  obtain ⟨t1, ht1⟩ := controlLoopIter_trace nofail fuel (send_stop_command nofail 5 s)
  by_cases hx : (controlLoopIter nofail fuel (send_stop_command nofail 5 s)).2 = true
  · obtain ⟨-, -, t2, ht2, -⟩ :=
      safe_shutdown_spec nofail (controlLoopIter nofail fuel (send_stop_command nofail 5 s)).1
    refine ⟨t1 ++ t2, ?_⟩
    simp only [control_loop, hx, if_true]
    rw [ht2, ht1, send_stop_command_nofail]
    simp [List.append_assoc]
  · simp only [Bool.not_eq_true] at hx
    refine ⟨t1, ?_⟩
    simp only [control_loop, hx]
    rw [if_neg (by simp [hx]), ht1, send_stop_command_nofail]

/-- Claim C3: when the operator issues Quit while connected and armed,
the program sends exactly 30 stop setpoints and then closes the link, in
that order (the trace after quitting is the 30-stop burst, then the link
closure, then the listener stop). -/
theorem C3_quit_burst_then_close (s : Ctrl) (k : Nat)
    (hr : s.is_running = true) (hc : s.is_connected = true)
    (hl : s.listener_running = true) :
    (quit_scenario nofail (k + 1) s).trace =
      s.trace ++ List.replicate 30 Event.sendStop ++
        [Event.closeLink, Event.listenerStop] := by
  have h1 : (on_key_press s Key.esc).1 = { s with is_running := false } := by
    simp [on_key_press, hr, hc, quit_program]
  have h2 : controlLoopIter nofail (k + 1) { s with is_running := false } =
      ({ s with is_running := false }, true) := by
    simp [controlLoopIter]
  simp only [quit_scenario, h1]
  rw [h2]
  simp [safe_shutdown_nofail, hc, hl, List.append_assoc]

/-- Claim C3 witness: the quit scenario run from the nominal
connected state. -/
theorem C3_quit_burst_then_close_witness :
    readyState.is_running = true ∧ readyState.is_connected = true ∧
      readyState.listener_running = true ∧
      (quit_scenario nofail 1 readyState).trace =
        readyState.trace ++ List.replicate 30 Event.sendStop ++
          [Event.closeLink, Event.listenerStop] :=
  ⟨rfl, rfl, rfl, C3_quit_burst_then_close readyState 0 rfl rfl rfl⟩

/-- Claim C4 counterexample: calling `_safe_shutdown` twice from the
nominal connected state sends 30 stop setpoints on the first call and 30
more on the second — the second call does send additional stop
setpoints, contrary to the claim. -/
theorem C4_counterexample_second_burst :
    ((safe_shutdown nofail (safe_shutdown nofail readyState).1).1.trace.count
        Event.sendStop = 60) ∧
      ((safe_shutdown nofail readyState).1.trace.count Event.sendStop = 30) := by
  simp only [safe_shutdown_nofail]
  decide

/-- Claim C4 amended: calling `_safe_shutdown` twice in succession
never lets an exception escape, but the stop burst is unguarded: the
second call sends a further burst (exactly 30 additional stop setpoints
when every send succeeds; the link closure and listener stop are not
repeated, being guarded by the connected/listener flags). -/
theorem C4_shutdown_twice_amended :
    (∀ (env : Env) (s : Ctrl),
      (safe_shutdown env s).2 = none ∧
        (safe_shutdown env (safe_shutdown env s).1).2 = none) ∧
    (∀ s : Ctrl,
      (safe_shutdown nofail (safe_shutdown nofail s).1).1.trace =
        (safe_shutdown nofail s).1.trace ++ List.replicate 30 Event.sendStop) := by
  refine ⟨fun env s => ⟨rfl, rfl⟩, fun s => ?_⟩
  rw [safe_shutdown_nofail s]
  rw [safe_shutdown_nofail]
  simp

/-- Claim C6 counterexample: invoking `_connected` when the controller
is already running is not a no-op — it starts a second control thread
and a second keyboard listener. -/
theorem C6_counterexample_double_connected :
    readyState.is_running = true ∧
      connected readyState ≠ readyState ∧
      (connected readyState).threadCount = 2 ∧
      (connected readyState).listenerCount = 2 := by
  refine ⟨rfl, ?_, rfl, rfl⟩
  decide

/-- Claim C6 amended: `_connected` has no running-flag guard; every
invocation, also when already running, starts one more periodic-sender
thread and one more input listener (and leaves the controller running
and connected). -/
theorem C6_connected_unguarded_amended (s : Ctrl) :
    (connected s).threadCount = s.threadCount + 1 ∧
      (connected s).listenerCount = s.listenerCount + 1 ∧
      (connected s).is_running = true ∧ (connected s).is_connected = true := by
  simp [connected]

/-- Claim C7: if the j-th send of the 30-stop burst fails (j < 30),
the remaining burst attempts are aborted — exactly j stop setpoints were
sent, with no retry — yet shutdown still closes the link. -/
theorem C7_burst_abort_still_closes (env : Env) (s : Ctrl) (j : Nat)
    (hj : j < 30)
    (hok : ∀ i, i < j → env.sendFail (s.sendAttempts + i) = false)
    (hfail : env.sendFail (s.sendAttempts + j) = true)
    (hc : s.is_connected = true) (hl : s.listener_running = true)
    (hcf : env.closeFail = false) :
    (safe_shutdown env s).1.trace =
      s.trace ++ List.replicate j Event.sendStop ++
        [Event.closeLink, Event.listenerStop] := by
  have hb := send_stop_command_fail env 30 j s hj hok hfail
  simp only [safe_shutdown, hb]
  simp [close_link, hc, hcf, hl, List.append_assoc]

/-- Claim C7 witness: an environment whose 4th send attempt fails,
applied from the nominal connected state. -/
theorem C7_burst_abort_still_closes_witness :
    (3 < 30 ∧ (∀ i, i < 3 → (Env.mk (fun n => n == 3) false).sendFail
        (readyState.sendAttempts + i) = false) ∧
      (Env.mk (fun n => n == 3) false).sendFail (readyState.sendAttempts + 3) = true ∧
      readyState.is_connected = true ∧ readyState.listener_running = true) ∧
    (safe_shutdown (Env.mk (fun n => n == 3) false) readyState).1.trace =
      readyState.trace ++ List.replicate 3 Event.sendStop ++
        [Event.closeLink, Event.listenerStop] :=
  ⟨⟨by omega, by decide, by decide, rfl, rfl⟩,
    C7_burst_abort_still_closes (Env.mk (fun n => n == 3) false) readyState 3
      (by omega) (by decide) (by decide) rfl rfl rfl⟩

/-- Claim C8: any key event other than up-arrow, down-arrow and escape
leaves the whole controller state unchanged and raises no exception. -/
theorem C8_unrecognized_key_noop (s : Ctrl) (k : Key)
    (h1 : k ≠ Key.up) (h2 : k ≠ Key.down) (h3 : k ≠ Key.esc) :
    on_key_press s k = (s, none) := by
  cases k with
  | up => exact absurd rfl h1
  | down => exact absurd rfl h2
  | esc => exact absurd rfl h3
  | other c =>
    simp only [on_key_press]
    split <;> rfl

/-- Claim C8 witness: an unrecognized key in the nominal running
state. -/
theorem C8_unrecognized_key_noop_witness :
    (Key.other 42 ≠ Key.up ∧ Key.other 42 ≠ Key.down ∧ Key.other 42 ≠ Key.esc) ∧
      on_key_press readyState (Key.other 42) = (readyState, none) :=
  ⟨⟨by decide, by decide, by decide⟩,
    C8_unrecognized_key_noop readyState (Key.other 42) (by decide) (by decide) (by decide)⟩

/-- Claim C9: when the running flag or the connected flag is false,
the key handler returns immediately for every key: the state is
unchanged (so no shutdown or exit is triggered) and no exception is
raised. -/
theorem C9_ignored_when_not_ready (s : Ctrl) (k : Key)
    (h : s.is_running = false ∨ s.is_connected = false) :
    on_key_press s k = (s, none) := by
  have hb : (!s.is_running || !s.is_connected) = true := by
    rcases h with h | h <;> simp [h]
  simp [on_key_press, hb]

/-- Claim C9 witness: escape pressed before the connection callback
has run. -/
theorem C9_ignored_when_not_ready_witness :
    (initCtrl.is_running = false ∨ initCtrl.is_connected = false) ∧
      on_key_press initCtrl Key.esc = (initCtrl, none) :=
  ⟨Or.inl rfl, C9_ignored_when_not_ready initCtrl Key.esc (Or.inl rfl)⟩

lemma cbStepFn_frozen (env : Env) (pc : Nat) (s : Ctrl) (hr : s.is_running = false) :
    (cbStepFn env pc s).2.is_running = false ∧
      ∃ t, (cbStepFn env pc s).2.trace = s.trace ++ t ∧ NoThrust t := by
  by_cases h0 : pc = 0
  · refine ⟨by simp [cbStepFn, h0, hr], [Event.connLostFired], by simp [cbStepFn, h0], ?_⟩
    intro v
    simp
  · by_cases h30 : pc ≤ 30
    · by_cases hf : env.sendFail s.sendAttempts = true
      · refine ⟨by simp [cbStepFn, h0, h30, sendSetpoint, hf, hr], [], ?_, ?_⟩
        · simp [cbStepFn, h0, h30, sendSetpoint, hf]
        · intro v
          simp
      · simp only [Bool.not_eq_true] at hf
        refine ⟨by simp [cbStepFn, h0, h30, sendSetpoint, hf, hr], [Event.sendStop], ?_, ?_⟩
        · simp [cbStepFn, h0, h30, sendSetpoint, hf]
        · intro v
          simp
    · by_cases h31 : pc = 31
      · by_cases hc : s.is_connected = true
        · by_cases hcf : env.closeFail = true
          · refine ⟨by simp [cbStepFn, h0, h30, h31, close_link, hc, hcf, hr], [], ?_, ?_⟩
            · simp [cbStepFn, h0, h30, h31, close_link, hc, hcf]
            · intro v
              simp
          · simp only [Bool.not_eq_true] at hcf
            refine ⟨by simp [cbStepFn, h0, h30, h31, close_link, hc, hcf, hr],
              [Event.closeLink], ?_, ?_⟩
            · simp [cbStepFn, h0, h30, h31, close_link, hc, hcf]
            · intro v
              simp
        · simp only [Bool.not_eq_true] at hc
          refine ⟨by simp [cbStepFn, h0, h30, h31, hc, hr], [], ?_, ?_⟩
          · simp [cbStepFn, h0, h30, h31, hc]
          · intro v
            simp
      · by_cases h32 : pc = 32
        · refine ⟨by simp [cbStepFn, h0, h30, h31, h32], [], ?_, ?_⟩
          · simp [cbStepFn, h0, h30, h31, h32]
          · intro v
            simp
        · by_cases h33 : pc = 33
          · by_cases hl : s.listener_running = true
            · refine ⟨by simp [cbStepFn, h0, h30, h31, h32, h33, hl, hr],
                [Event.listenerStop], ?_, ?_⟩
              · simp [cbStepFn, h0, h30, h31, h32, h33, hl]
              · intro v
                simp
            · simp only [Bool.not_eq_true] at hl
              refine ⟨by simp [cbStepFn, h0, h30, h31, h32, h33, hl, hr], [], ?_, ?_⟩
              · simp [cbStepFn, h0, h30, h31, h32, h33, hl]
              · intro v
                simp
          · refine ⟨by simp [cbStepFn, h0, h30, h31, h32, h33, hr], [], ?_, ?_⟩
            · simp [cbStepFn, h0, h30, h31, h32, h33]
            · intro v
              simp

lemma concStep_frozen (env : Env) (c : Conc) (ch : Choice)
    (hr : c.ctrl.is_running = false) (hpc : c.loopPc ≠ LoopPc.sending) :
    (concStep env c ch).ctrl.is_running = false ∧
      (concStep env c ch).loopPc ≠ LoopPc.sending ∧
      ∃ t, (concStep env c ch).ctrl.trace = c.ctrl.trace ++ t ∧ NoThrust t := by
  cases ch with
  | loopStep =>
    cases hl : c.loopPc with
    | check =>
      obtain ⟨-, hrun, t, ht, hnt⟩ := safe_shutdown_spec env c.ctrl
      refine ⟨?_, ?_, t, ?_, hnt⟩ <;>
        simp [concStep, loopStepFn, hl, hr, hrun, ht]
    | sending => exact absurd hl hpc
    | finished =>
      refine ⟨?_, ?_, [], ?_, ?_⟩ <;>
        simp [concStep, loopStepFn, hl, hr, NoThrust]
  | cbStep =>
    obtain ⟨h1, t, h2, h3⟩ := cbStepFn_frozen env c.cbPc c.ctrl hr
    exact ⟨h1, by simpa [concStep] using hpc, t, h2, h3⟩

/-- Claim C5 amended: once the connection-lost callback has cleared
the running flag and the sender loop is at its while-condition check (or
already finished), no thrust-carrying setpoint is ever sent again, under
every schedule; while the callback's stop burst is still in progress the
sender may still transmit thrust setpoints (see the counterexample). -/
theorem C5_sender_stops_amended (env : Env) (sched : List Choice) (c : Conc)
    (hr : c.ctrl.is_running = false) (hpc : c.loopPc ≠ LoopPc.sending) :
    ∃ t, (concRun env c sched).ctrl.trace = c.ctrl.trace ++ t ∧ NoThrust t := by
  induction sched generalizing c with
  | nil => exact ⟨[], by simp [concRun], by intro v; simp [NoThrust]⟩
  | cons ch sched ih =>
    obtain ⟨h1, h2, t0, h3, h4⟩ := concStep_frozen env c ch hr hpc
    obtain ⟨t1, h5, h6⟩ := ih (concStep env c ch) h1 h2
    refine ⟨t0 ++ t1, ?_, ?_⟩
    · have : concRun env c (ch :: sched) = concRun env (concStep env c ch) sched := rfl
      rw [this, h5, h3, List.append_assoc]
    · intro v
      simp only [List.mem_append]
      rintro (hv | hv)
      · exact h4 v hv
      · exact h6 v hv

/-- Claim C5 counterexample: an interleaving in which, after the
connection-lost callback has fired (trace index 3) and sent the first
stop setpoint of its burst, the still-running sender loop transmits a
thrust setpoint (trace index 5) — so periodic sends do continue after
`onConnectionLost` fires. -/
theorem C5_counterexample_send_after_lost :
    (concRun nofail lostConc
        [Choice.cbStep, Choice.cbStep, Choice.loopStep, Choice.loopStep]).ctrl.trace =
      [Event.armRequest, Event.startControlThread, Event.startListener,
        Event.connLostFired, Event.sendStop, Event.sendThrust 20000] ∧
    (concRun nofail lostConc
        [Choice.cbStep, Choice.cbStep, Choice.loopStep, Choice.loopStep]).ctrl.trace[3]? =
      some Event.connLostFired ∧
    (concRun nofail lostConc
        [Choice.cbStep, Choice.cbStep, Choice.loopStep, Choice.loopStep]).ctrl.trace[5]? =
      some (Event.sendThrust 20000) := by
  refine ⟨?_, ?_, ?_⟩ <;> decide

/-- Claim C5 witness: the frozen system after a completed shutdown,
run under a two-step schedule. -/
theorem C5_sender_stops_amended_witness :
    ((safe_shutdown nofail readyState).1.is_running = false ∧
      (LoopPc.check : LoopPc) ≠ LoopPc.sending) ∧
      ∃ t, (concRun nofail
          { ctrl := (safe_shutdown nofail readyState).1, loopPc := LoopPc.check, cbPc := 34 }
          [Choice.loopStep, Choice.cbStep]).ctrl.trace =
        (safe_shutdown nofail readyState).1.trace ++ t ∧ NoThrust t :=
  ⟨⟨(safe_shutdown_spec nofail readyState).2.1, by decide⟩,
    C5_sender_stops_amended nofail [Choice.loopStep, Choice.cbStep]
      { ctrl := (safe_shutdown nofail readyState).1, loopPc := LoopPc.check, cbPc := 34 }
      (safe_shutdown_spec nofail readyState).2.1 (by decide)⟩

end DroneThrustControl
